import Mathlib

/-!
Verification of the mocy web-crawling framework (package src/mocy) against its
natural-language specification.  The definitions below are a shallow embedding
of the Python source: pure fragments become Lean functions, the stateful parts
of the engine become explicit state passing over a `SpState` record, and the
concurrent engine is modelled as a small-step transition relation.  External
collaborators (the HTTP client, the URL library, user handlers, the parse
callback) are modelled as explicit parameters (environments) of the embedded
functions, exactly as the spec treats them.
-/

namespace Mocy

/-- Kinds of SpiderError (src/mocy/exceptions.py): RequestIgnored,
ResponseIgnored, DownLoadError, ParseError, PipeError, and the base class
SpiderError itself (the generic catchall). -/
inductive SpKind where
  | requestIgnored
  | responseIgnored
  | downloadError
  | parseError
  | pipeError
  | generic
deriving DecidableEq, Repr

/-- Values of the session attribute of a Request
(src/mocy/request.py: session is False, True, None, a live Session object, or
a dict of session attributes).  A live session handle is identified by a
natural number. -/
inductive SessVal where
  | pyFalse
  | pyTrue
  | pyNone
  | handle (id : Nat)
  | attrDict (n : Nat)
deriving DecidableEq, Repr

/-- Model of a Request object as used by src/mocy/spider.py: the fields the
engine reads and writes.  The source constructor (src/mocy/request.py,
Request.__init__) does NOT assign retry_num (the parameter and the assignment
are commented out); the engine nevertheless reads and writes it.  The field
retryNum here carries the value the spec declares as the initial one (0); the
discrepancy with the source constructor is the subject of claim C3 and is
recorded by requestInitAssignedAttrs below. -/
structure Req where
  url : String := ""
  method : String := "GET"
  hasCallback : Bool := false
  session : SessVal := .pyFalse
  headers : List (String × String) := []
  timeout : Option Nat := none
  retryNum : Nat := 0
deriving DecidableEq, Repr

/-- Model of a Response object (src/mocy/response.py): the fields the engine
reads.  The session attribute holds the handle id of the live session used for
the fetch, if any. -/
structure Resp where
  url : String := ""
  statusCode : Nat := 200
  req : Req := {}
  session : Option Nat := none
deriving DecidableEq, Repr

/-- Python values that user handlers may return: None, a Request, a Response,
or some other object (modelled by strings and integers). -/
inductive PyVal where
  | pyNone
  | req (r : Req)
  | resp (r : Resp)
  | str (s : String)
  | int (n : Int)
deriving DecidableEq, Repr

/-- Python exceptions relevant to the engine: plain exceptions (by class
name), the retryable transport errors (requests.exceptions.ConnectionError and
Timeout), FailedStatusCode (src/mocy/exceptions.py), and SpiderError instances
with their kind and mutable attributes (msg is determined by kind and url and
is not modelled separately). -/
inductive PyExn where
  | plain (name : String)
  | connectionError
  | timeoutError
  | failedStatusCode (code : Nat)
  | spider (kind : SpKind) (url : String) (cause : Option PyExn)
      (needRetry : Bool) (newReq : Option Req) (errReq : Option Req)
      (errRes : Option Resp)
deriving Repr

/-- isinstance(err, RequestIgnored). -/
def PyExn.isRequestIgnored : PyExn → Bool
  | .spider .requestIgnored .. => true
  | _ => false

/-- isinstance(err, ResponseIgnored). -/
def PyExn.isResponseIgnored : PyExn → Bool
  | .spider .responseIgnored .. => true
  | _ => false

/-- isinstance(err, DownLoadError). -/
def PyExn.isDownloadError : PyExn → Bool
  | .spider .downloadError .. => true
  | _ => false

/-- Assignment err.req = r (a no-op on non-SpiderError values, which the
source never performs). -/
def PyExn.setErrReq (e : PyExn) (r : Req) : PyExn :=
  match e with
  | .spider k u c nr nq _ rs => .spider k u c nr nq (some r) rs
  | e => e

/-- Assignment err.res = r. -/
def PyExn.setErrRes (e : PyExn) (r : Resp) : PyExn :=
  match e with
  | .spider k u c nr nq rq _ => .spider k u c nr nq rq (some r)
  | e => e

/-- The cause attribute of a SpiderError. -/
def PyExn.causeOf : PyExn → Option PyExn
  | .spider _ _ c .. => c
  | _ => none

/-- The need_retry attribute of a DownLoadError. -/
def PyExn.needRetryOf : PyExn → Bool
  | .spider _ _ _ nr .. => nr
  | _ => false

/-- The new_req attribute of a ResponseIgnored. -/
def PyExn.newReqOf : PyExn → Option Req
  | .spider _ _ _ _ nq .. => nq
  | _ => none

/-- The req attribute of a SpiderError. -/
def PyExn.errReqOf : PyExn → Option Req
  | .spider _ _ _ _ _ rq _ => rq
  | _ => none

/-! ## Claim C3: attributes assigned by Request.__init__

src/mocy/request.py, Request.__init__ (lines 8-44): the instance attributes
the constructor assigns, in source order.  The retry parameter and the
assignment of a retry counter are commented out in the source
(lines 15 and 32), so no retry_num attribute is ever created. -/

/-- The attribute names assigned by Request.__init__, transcribed from
src/mocy/request.py lines 26-44 in order. -/
def requestInitAssignedAttrs : List String :=
  ["url", "method", "callback", "state", "session", "meta",
   "headers", "params", "data", "json", "files", "cookies",
   "timeout", "proxies", "verify", "kwargs"]

/-- The Request attributes read by Spider._add_request
(src/mocy/spider.py lines 279-296, including _add_default_header):
req.timeout, req.headers, req.url (via urlparse), and req.retry_num. -/
def addRequestReadAttrs : List String :=
  ["timeout", "headers", "url", "retry_num"]

/-! ## Claim C8: Spider._check_handlers

src/mocy/spider.py lines 248-263.  The inner function check scans a handler
chain: a plain function makes it RETURN (ending the whole scan); an object
exposing the conventionally named method is replaced by that bound method; any
other entry is replaced by the identity function after a warning. -/

/-- An entry of a handler chain as seen by _check_handlers: a plain function
(inspect.isfunction is True), an object that may or may not expose the
conventionally named method (method ids are natural numbers), a bound method
obtained from such an object (inspect.isfunction is False, and it does not
itself expose the named attribute), or the identity function substituted for
a method-less object (a plain function, so inspect.isfunction is True). -/
inductive ChainEntry where
  | fn (i : Nat)
  | obj (method : Option Nat)
  | bound (i : Nat)
  | ident
deriving DecidableEq, Repr

/-- inspect.isfunction on a chain entry: True exactly for plain functions,
including the identity function from src/mocy/utils.py. -/
def ChainEntry.isFunction : ChainEntry → Bool
  | .fn _ => true
  | .ident => true
  | _ => false

/-- Resolution of one non-function entry by check: hasattr(handler, name)
holds exactly for an object carrying the named method, in which case the
entry becomes the bound method; otherwise a warning is logged and the entry
becomes the identity function. -/
def resolveEntry : ChainEntry → ChainEntry
  | .obj (some m) => .bound m
  | e => if e.isFunction then e else .ident

/-- Embedding of the inner function check of Spider._check_handlers
(src/mocy/spider.py lines 250-260): entries are scanned in order; on the
first plain function the whole scan returns, leaving every later entry
untouched; any other entry is replaced by resolveEntry and the scan
continues. -/
def check : List ChainEntry → List ChainEntry
  | [] => []
  | h :: rest =>
    if h.isFunction then h :: rest
    else resolveEntry h :: check rest

/-! ## Configuration and engine state

src/mocy/spider.py lines 67-122.  Durations are modelled in whole seconds. -/

/-- The configuration knobs of a Spider subclass (class attributes,
src/mocy/spider.py lines 68-93) that the embedded engine reads. -/
structure Cfg where
  timeout : Nat := 30
  retryTimes : Nat := 3
  retryCodes : List Nat := [500, 502, 503, 504, 408, 429]
  retryDelay : Nat := 1
deriving DecidableEq, Repr

/-- DEFAULT_HEADERS (src/mocy/spider.py lines 95-100). -/
def defaultHeaders : List (String × String) :=
  [("User-Agent", "mocy/0.1 (a kind spider)"),
   ("Accept",
    "text/html,application/xhtml+xml,application/xml;q=0.9,image/webp,image/apng,*/*;q=0.8"),
   ("Accept-Language",
    "zh-Hans-CN,zh-CN;q=0.9,zh;q=0.8,en;q=0.7,en-GB;q=0.6,en-US;q=0.5,zh-TW;q=0.4,ja;q=0.3,pt;q=0.2,hu;q=0.1")]

/-- The mutable engine state of a Spider instance (src/mocy/spider.py
lines 114-119): the issued and completed counters, the request queue (its
FIFO part and the delayed heap of the DelayQueue from src/mocy/utils.py),
the requests currently held by a fetcher (implicit in the threads), the
response channel, and the failed-URL list. -/
structure SpState where
  requestCount : Nat := 0
  responseCount : Nat := 0
  queue : List Req := []
  delayed : List Req := []
  inflight : List Req := []
  chan : List (Except PyExn Resp) := []
  failedUrls : List String := []
deriving Repr

/-- dict.setdefault on a header mapping: add the pair only when the key is
absent. -/
def setdefault (hs : List (String × String)) (k v : String) : List (String × String) :=
  if hs.any (fun p => p.1 = k) then hs else hs ++ [(k, v)]

/-- Model of urlparse(url).netloc from the external urllib library: the host
part between the scheme separator and the next slash, empty when the url has
no scheme. -/
def netloc (url : String) : String :=
  match url.splitOn "://" with
  | _ :: rest :: _ => (rest.splitOn "/").headD ""
  | _ => ""

/-- Embedding of Spider._add_default_header (src/mocy/spider.py
lines 292-296). -/
def addDefaultHeader (req : Req) : Req :=
  let hs := setdefault req.headers "Host" (netloc req.url)
  let hs := defaultHeaders.foldl (fun acc p => setdefault acc p.1 p.2) hs
  { req with headers := hs }

/-- The request mutations performed by Spider._add_request before enqueueing
(src/mocy/spider.py lines 282-285): default the timeout, fill default
headers. -/
def prepareReq (cfg : Cfg) (req : Req) : Req :=
  let req := if req.timeout.isNone then { req with timeout := some cfg.timeout } else req
  addDefaultHeader req

/-- Embedding of Spider._add_request (src/mocy/spider.py lines 279-290):
increment the issued counter and enqueue, using put_later (the delayed heap)
when the request is a retry and a retry delay is configured, and the plain
FIFO otherwise. -/
def addRequest (cfg : Cfg) (s : SpState) (req : Req) : SpState :=
  let req := prepareReq cfg req
  if req.retryNum > 0 ∧ cfg.retryDelay > 0 then
    { s with requestCount := s.requestCount + 1, delayed := s.delayed ++ [req] }
  else
    { s with requestCount := s.requestCount + 1, queue := s.queue ++ [req] }

/-! ## Hook chains

src/mocy/spider.py lines 407-424 and the wrapping except clauses of
Spider._download (lines 310-348).  A user handler either returns a Python
value or raises an exception. -/

/-- The outcome of calling one user handler. -/
inductive HRes where
  | ret (v : PyVal)
  | exn (e : PyExn)

/-- A before-download handler, closed over the spider argument. -/
def PreHandler : Type := Req → HRes

/-- An after-download handler, closed over the spider argument. -/
def PostHandler : Type := Resp → HRes

/-- Embedding of the loop of Spider._pre_download (src/mocy/spider.py
lines 408-413): rv starts as the request and is threaded through the
handlers; a handler returning a non-Request raises
RequestIgnored(req.url) (cause None) with the ORIGINAL request url; a raising
handler propagates its exception. -/
def preDownloadGo (origUrl : String) : List PreHandler → Req → Except PyExn Req
  | [], rv => .ok rv
  | h :: hs, rv =>
    match h rv with
    | .exn e => .error e
    | .ret (.req r) => preDownloadGo origUrl hs r
    | .ret _ => .error (.spider .requestIgnored origUrl none false none none none)

/-- Spider._pre_download (src/mocy/spider.py lines 407-413). -/
def preDownload (hs : List PreHandler) (req : Req) : Except PyExn Req :=
  preDownloadGo req.url hs req

/-- The wrap in Spider._download lines 313-316: a non-RequestIgnored
exception becomes RequestIgnored(req.url, err). -/
def wrapRequestIgnored (url : String) (e : PyExn) : PyExn :=
  if e.isRequestIgnored then e else .spider .requestIgnored url (some e) false none none none

/-- The before-download stage of one Spider._download iteration
(src/mocy/spider.py lines 310-318): run _pre_download; on an exception wrap
it as RequestIgnored when needed, set err.req to the dequeued request, and
deliver the error. -/
def preDownloadStep (hs : List PreHandler) (req : Req) : Except PyExn Req :=
  match preDownload hs req with
  | .ok r => .ok r
  | .error e => .error ((wrapRequestIgnored req.url e).setErrReq req)

/-- Embedding of the loop of Spider._post_download (src/mocy/spider.py
lines 416-424): rv is threaded through the handlers; a handler returning a
non-Response raises ResponseIgnored(res.req.url), whose new_req is set when
the returned value is a Request; a raising handler propagates its
exception. -/
def postDownloadGo (origUrl : String) : List PostHandler → Resp → Except PyExn Resp
  | [], rv => .ok rv
  | h :: hs, rv =>
    match h rv with
    | .exn e => .error e
    | .ret (.resp r) => postDownloadGo origUrl hs r
    | .ret (.req r) => .error (.spider .responseIgnored origUrl none false (some r) none none)
    | .ret _ => .error (.spider .responseIgnored origUrl none false none none none)

/-- Spider._post_download (src/mocy/spider.py lines 415-424). -/
def postDownload (hs : List PostHandler) (res : Resp) : Except PyExn Resp :=
  postDownloadGo res.req.url hs res

/-- The wrap in Spider._download lines 343-344: a non-ResponseIgnored
exception becomes ResponseIgnored(res.req.url, err). -/
def wrapResponseIgnored (url : String) (e : PyExn) : PyExn :=
  if e.isResponseIgnored then e else .spider .responseIgnored url (some e) false none none none

/-- The after-download stage of one Spider._download iteration
(src/mocy/spider.py lines 339-348): run _post_download; on an exception wrap
it when needed, set err.req to the pre-processed request and err.res to the
downloaded response, and deliver the error. -/
def postDownloadStep (hs : List PostHandler) (req : Req) (res : Resp) : Except PyExn Resp :=
  match postDownload hs res with
  | .ok r => .ok r
  | .error e => .error (((wrapResponseIgnored res.req.url e).setErrReq req).setErrRes res)

/-! ## The downloading stage and one fetcher iteration

src/mocy/spider.py lines 320-350 and _check_status_codes (lines 352-357). -/

/-- Assignment err.need_retry = b. -/
def PyExn.setNeedRetry (e : PyExn) (b : Bool) : PyExn :=
  match e with
  | .spider k u c _ nq rq rs => .spider k u c b nq rq rs
  | e => e

/-- isinstance(err.cause, (ConnectionError, Timeout, FailedStatusCode))
(src/mocy/spider.py line 333). -/
def isRetryableCause : Option PyExn → Bool
  | some .connectionError => true
  | some .timeoutError => true
  | some (.failedStatusCode _) => true
  | _ => false

/-- The wrap in Spider._download lines 331-332. -/
def wrapDownloadError (url : String) (e : PyExn) : PyExn :=
  if e.isDownloadError then e else .spider .downloadError url (some e) false none none none

/-- Spider._check_status_codes (src/mocy/spider.py lines 352-357): a status
code in RETRY_CODES raises DownLoadError(res.req.url, FailedStatusCode(code))
carrying the response. -/
def checkStatusCodes (cfg : Cfg) (res : Resp) : Option PyExn :=
  if res.statusCode ∈ cfg.retryCodes then
    some ((PyExn.spider .downloadError res.req.url
      (some (.failedStatusCode res.statusCode)) false none none none).setErrRes res)
  else none

/-- The except clause of the downloading stage (src/mocy/spider.py
lines 330-336): wrap as DownLoadError when needed, set need_retry when the
cause is a connection error, a timeout or a FailedStatusCode, and set
err.req. -/
def downloadErrorOut (req : Req) (e : PyExn) : PyExn :=
  let e := wrapDownloadError req.url e
  let e := if isRetryableCause e.causeOf then e.setNeedRetry true else e
  e.setErrReq req

/-- The environment of one fetcher iteration: the bound hook chains and the
external HTTP client (req.send(), which either returns a response or raises;
the returned response carries the issuing request, as Request.send sets
res.req). -/
structure DlEnv where
  pre : List PreHandler
  post : List PostHandler
  send : Req → Except PyExn Resp

/-- The downloading stage of one fetcher iteration (src/mocy/spider.py
lines 320-337): issue the HTTP call and classify the status code; on any
exception deliver the wrapped DownLoadError. -/
def downloadBlock (env : DlEnv) (cfg : Cfg) (req : Req) : Except PyExn Resp :=
  match env.send req with
  | .error e => .error (downloadErrorOut req e)
  | .ok res0 =>
    let res := { res0 with req := req }
    match checkStatusCodes cfg res with
    | some e => .error (downloadErrorOut req e)
    | none => .ok res

/-- One full iteration of the fetcher loop Spider._download
(src/mocy/spider.py lines 304-350) for one dequeued request: the list of
items the iteration puts on the response channel.  Every branch of the
source loop body ends in exactly one response_queue.put followed by continue
(or falls through to the final put). -/
def downloadIterEmits (env : DlEnv) (cfg : Cfg) (req : Req) : List (Except PyExn Resp) :=
  match preDownloadStep env.pre req with
  | .error e => [.error e]
  | .ok req2 =>
    match downloadBlock env cfg req2 with
    | .error e => [.error e]
    | .ok res =>
      match postDownloadStep env.post req2 res with
      | .error e => [.error e]
      | .ok res2 => [.ok res2]

/-! ## The error classifier

Spider._check_error, src/mocy/spider.py lines 439-460. -/

/-- Embedding of Spider._check_error: classify an error from the response
channel; the result is the updated state plus the error to report via
on_error, when any.  RequestIgnored: report when a cause is present, else
absorb.  ResponseIgnored: enqueue new_req when set, then report when a cause
is present.  DownLoadError: when need_retry holds and retry_num is below
RETRY_TIMES, bump retry_num and re-enqueue; otherwise record the failed url
and report.  Any other kind falls through and is absorbed (the source returns
None). -/
def checkError (cfg : Cfg) (s : SpState) (e : PyExn) : SpState × Option PyExn :=
  if e.isRequestIgnored then
    if e.causeOf.isSome then (s, some e) else (s, none)
  else if e.isResponseIgnored then
    let s :=
      match e.newReqOf with
      | some r => addRequest cfg s r
      | none => s
    if e.causeOf.isSome then (s, some e) else (s, none)
  else if e.isDownloadError then
    let req := (e.errReqOf).getD {}
    if e.needRetryOf ∧ req.retryNum < cfg.retryTimes then
      (addRequest cfg s { req with retryNum := req.retryNum + 1 }, none)
    else
      ({ s with failedUrls := s.failedUrls ++ [req.url] }, some e)
  else
    (s, none)

/-! ## The dispatcher: processing one response

Spider.__iter__, src/mocy/spider.py lines 188-218: pick the parse callback,
invoke it, route yielded Requests back into the queue (with url resolution,
session transfer and Referer header), yield other items, turn a raising
parser into a ParseError, and close the session unless a yielded request
took ownership of it. -/

/-- The value an invocation of the parse callback produces: a mutable
sequence (a Python list), a generator, some other sequence such as a tuple
(a Sequence that is not a MutableSequence), any non-sequence value, or an
exception. -/
inductive ParseResult where
  | mutSeq (items : List PyVal)
  | gen (items : List PyVal)
  | tup (items : List PyVal)
  | scalar (v : PyVal)
  | raises (e : PyExn)

/-- The environment of the dispatcher for one response: the chosen parse
callback (res.req.callback when set, else the default parse method of the
spider), the external urllib.parse.urljoin, and the behavior of
session.close() per session handle (none: closes normally; some e: raises
e). -/
structure DispatchEnv where
  parse : Resp → ParseResult
  urljoinFn : String → String → String
  closeFail : Nat → Option PyExn

/-- Assignment to a key of a header dict: overwrite when present, append
otherwise (req.headers, src/mocy/spider.py line 207). -/
def setItem (hs : List (String × String)) (k v : String) : List (String × String) :=
  if hs.any (fun p => p.1 = k) then
    hs.map (fun p => if p.1 = k then (k, v) else p)
  else hs ++ [(k, v)]

/-- The session-transfer conditional of Spider.__iter__ lines 203-205:
when the current response holds a live session and the yielded request has
session False or None, the request takes ownership of that handle.  The
returned Bool reports whether ownership was taken. -/
def transferSession (resSession : Option Nat) (r : Req) : Bool × Req :=
  match resSession with
  | some h =>
    if r.session = .pyFalse ∨ r.session = .pyNone then
      (true, { r with session := .handle h })
    else (false, r)
  | none => (false, r)

/-- The dispatcher side effects collected while processing one response:
items yielded to the consumer (the pipe stage), errors yielded to the
consumer (routed to on_error), how many times session.close() returned
normally, and the exception that escaped the dispatcher loop, if any. -/
structure DispatchOut where
  yielded : List PyVal := []
  errors : List PyExn := []
  sessionCloses : Nat := 0
  propagated : Option PyExn := none

/-- The accumulator of the for-loop over the parse result
(src/mocy/spider.py lines 198-210): the engine state, the close_session
flag, and the non-request items yielded so far. -/
structure LoopAcc where
  st : SpState
  closeSession : Bool
  yielded : List PyVal

/-- One iteration of the for-loop over the parse result (src/mocy/spider.py
lines 198-210): a yielded Request has its url resolved against the response
url, may take ownership of the session (clearing close_session), gets its
Referer header set to the response url, and is enqueued via _add_request;
any other item is yielded together with the response. -/
def yieldStep (denv : DispatchEnv) (cfg : Cfg) (res : Resp) (acc : LoopAcc)
    (item : PyVal) : LoopAcc :=
  match item with
  | .req r0 =>
    let r1 := { r0 with url := denv.urljoinFn res.url r0.url }
    let tr := transferSession res.session r1
    let r2 := { tr.2 with headers := setItem tr.2.headers "Referer" res.url }
    { st := addRequest cfg acc.st r2,
      closeSession := acc.closeSession && !tr.1,
      yielded := acc.yielded }
  | v => { acc with yielded := acc.yielded ++ [v] }

/-- The session-closing epilogue of Spider.__iter__ lines 217-218: when the
response carried a live session and no yielded request took ownership, call
session.close().  The call is NOT wrapped in a try block in the source, so
an exception it raises escapes the dispatcher loop. -/
def closeStage (denv : DispatchEnv) (res : Resp) (closeSession : Bool)
    (out : DispatchOut) : DispatchOut :=
  match res.session with
  | some h =>
    if closeSession then
      match denv.closeFail h with
      | some e => { out with propagated := some e }
      | none => { out with sessionCloses := out.sessionCloses + 1 }
    else out
  | none => out

/-- Embedding of the response-processing part of one dispatcher iteration
(src/mocy/spider.py lines 188-218): invoke the chosen parse callback; when
its result is a MutableSequence or a Generator, run the for-loop over its
elements; any other result is ignored silently; a raising parser yields a
ParseError carrying the request and the response; finally run the
session-closing epilogue. -/
def dispatchResponse (denv : DispatchEnv) (cfg : Cfg) (s : SpState) (res : Resp) :
    SpState × DispatchOut :=
  match denv.parse res with
  | .raises e =>
    let err := PyExn.spider .parseError res.req.url (some e) false none
      (some res.req) (some res)
    (s, closeStage denv res true { errors := [err] })
  | .mutSeq items =>
    let acc := items.foldl (yieldStep denv cfg res)
      { st := s, closeSession := true, yielded := [] }
    (acc.st, closeStage denv res acc.closeSession { yielded := acc.yielded })
  | .gen items =>
    let acc := items.foldl (yieldStep denv cfg res)
      { st := s, closeSession := true, yielded := [] }
    (acc.st, closeStage denv res acc.closeSession { yielded := acc.yielded })
  | .tup _ => (s, closeStage denv res true {})
  | .scalar _ => (s, closeStage denv res true {})

/-! ## The pipe chain

Spider._start_pipes, src/mocy/spider.py lines 426-437.  The source inspects
each handler's declared argument count to decide whether to pass the
response; here every handler receives both the item and the response, and a
two-argument handler is one that ignores the response. -/

/-- A pipe handler, closed over the spider argument: receives the current
item and the response. -/
def PipeHandler : Type := PyVal → Resp → PyVal

/-- The loop of Spider._start_pipes (lines 428-437): rv is threaded through
the chain; as soon as a handler returns None the loop returns None; the
final rv is the collected value. -/
def pipesGo : List PipeHandler → PyVal → Resp → Option PyVal
  | [], rv, _ => some rv
  | f :: fs, rv, res =>
    match f rv res with
    | .pyNone => none
    | rv2 => pipesGo fs rv2 res

/-- Spider._start_pipes (src/mocy/spider.py lines 426-437): iterate over
self.pipes, or over the one-element chain holding the spider's collect
method when self.pipes is empty (the expression self.pipes or
(self.__class__.collect,)). -/
def startPipes (pipes : List PipeHandler) (collect : PipeHandler)
    (item : PyVal) (res : Resp) : Option PyVal :=
  pipesGo (if pipes.isEmpty then [collect] else pipes) item res

/-! ## The retry loop

The behavior of a single logical request all of whose download attempts fail
retryably: each attempt emits a DownLoadError with need_retry set
(src/mocy/spider.py lines 330-336, e.g. a ConnectionError from the HTTP
call), which the dispatcher routes through _check_error
(lines 452-460). -/

/-- The DownLoadError one download attempt for req emits when the HTTP call
raises ConnectionError: the error path of downloadBlock. -/
def retryFailure (req : Req) : PyExn := downloadErrorOut req .connectionError

/-- The attempt loop of a request all of whose attempts fail retryably: one
attempt produces retryFailure req, which _check_error either turns into a
delayed re-enqueue of the request with retry_num incremented (in which case
the fetchers attempt that request next) or reports as terminal.  Returns the
number of download attempts performed, the final state, and the list of
errors reported via on_error.  The fuel bounds recursion and is never
exhausted when it is at least retryTimes + 1 - retry_num. -/
def retryRun (cfg : Cfg) : Nat → SpState → Req → Nat × SpState × List PyExn
  | 0, s, _ => (0, s, [])
  | fuel + 1, s, req =>
    match checkError cfg s (retryFailure req) with
    | (s2, some e) => (1, s2, [e])
    | (s2, none) =>
      let next := prepareReq cfg { req with retryNum := req.retryNum + 1 }
      let rec2 := retryRun cfg fuel s2 next
      (rec2.1 + 1, rec2.2.1, rec2.2.2)

/-! ## The engine as a transition system

The concurrent engine (fetcher pool, DelayQueue poller, dispatcher loop) is
modelled as a small-step relation on SpState.  Each step is one atomic
action of the source: seeding a request (Spider._start_requests), the
DelayQueue poller graduating a delayed item into the FIFO
(src/mocy/utils.py, DelayQueue._poll), a fetcher dequeuing a request
(line 306), a fetcher finishing its iteration and publishing on the
response channel (lines 310-350), and the dispatcher consuming one channel
item — which is guarded by the loop condition
while not self._completed (line 178) and increments the completed counter
(line 180) before routing the item. -/

/-- Spider._completed (src/mocy/spider.py lines 472-474). -/
def completed (s : SpState) : Bool := s.requestCount == s.responseCount

/-- The number of requests issued but not yet accounted on the response side:
waiting in the FIFO or the delayed heap, held by a fetcher, or sitting on the
response channel. -/
def outstanding (s : SpState) : Nat :=
  s.queue.length + s.delayed.length + s.inflight.length + s.chan.length

/-- One atomic action of the engine. -/
inductive Step (denv : DispatchEnv) (env : DlEnv) (cfg : Cfg) :
    SpState → SpState → Prop where
  | seed (s : SpState) (r : Req) :
      Step denv env cfg s (addRequest cfg s r)
  | graduate (s : SpState) (r : Req) (ds : List Req) :
      s.delayed = r :: ds →
      Step denv env cfg s { s with delayed := ds, queue := s.queue ++ [r] }
  | take (s : SpState) (r : Req) (q : List Req) :
      s.queue = r :: q →
      Step denv env cfg s { s with queue := q, inflight := s.inflight ++ [r] }
  | emit (s : SpState) (r : Req) (fl1 fl2 : List Req) :
      s.inflight = fl1 ++ r :: fl2 →
      Step denv env cfg s
        { s with inflight := fl1 ++ fl2,
                 chan := s.chan ++ downloadIterEmits env cfg r }
  | dispatchOk (s : SpState) (res : Resp) (rest : List (Except PyExn Resp)) :
      s.chan = .ok res :: rest →
      completed s = false →
      Step denv env cfg s
        (dispatchResponse denv cfg
          { s with chan := rest, responseCount := s.responseCount + 1 } res).1
  | dispatchErr (s : SpState) (e : PyExn) (rest : List (Except PyExn Resp)) :
      s.chan = .error e :: rest →
      completed s = false →
      Step denv env cfg s
        (checkError cfg
          { s with chan := rest, responseCount := s.responseCount + 1 } e).1

/-- A state the engine can reach from the pristine state of Spider.__init__
(all counters zero, all queues empty). -/
def Reachable (denv : DispatchEnv) (env : DlEnv) (cfg : Cfg) (s : SpState) : Prop :=
  Relation.ReflTransGen (Step denv env cfg) {} s

/-- The completion-accounting invariant: the issued counter equals the
completed counter plus the number of outstanding requests. -/
def counterInv (s : SpState) : Prop :=
  s.requestCount = s.responseCount + outstanding s

/-! ## Sample values used to instantiate the theorems on concrete inputs -/

/-- isinstance(rv, Request) on a handler return value. -/
def PyVal.isRequestVal : PyVal → Bool
  | .req _ => true
  | _ => false

/-- A sample request. -/
def sReq : Req := { url := "https://a.example/x" }

/-- A second sample request, as yielded by a handler. -/
def sReq2 : Req := { url := "https://a.example/next" }

/-- A sample response to sReq. -/
def sResp : Resp := { url := "https://a.example/x", req := sReq }

/-- A before-download handler that passes the request through. -/
def hPass : PreHandler := fun r => .ret (.req r)

/-- A before-download handler that returns None (a non-Request). -/
def hNone : PreHandler := fun _ => .ret .pyNone

/-- A before-download handler that raises ValueError. -/
def hRaise : PreHandler := fun _ => .exn (.plain "ValueError")

/-- An after-download handler that passes the response through. -/
def hPostPass : PostHandler := fun r => .ret (.resp r)

/-- An after-download handler that returns a Request. -/
def hPostReq : PostHandler := fun _ => .ret (.req sReq2)

/-- A pipe handler that tags the item. -/
def pTag : PipeHandler := fun v _ =>
  match v with
  | .str s => .str (s ++ "!")
  | v => v

/-- A pipe handler that returns None for every item. -/
def pDrop : PipeHandler := fun _ _ => .pyNone

/-- A collect stand-in that wraps the item. -/
def pCollect : PipeHandler := fun v _ => v

/-- An HTTP client that always raises ConnectionError. -/
def sendConnFail : Req → Except PyExn Resp := fun _ => .error .connectionError

/-- An HTTP client that returns a 200 response. -/
def sendOk : Req → Except PyExn Resp := fun r => .ok { url := r.url, statusCode := 200, req := r }

/-- A sample fetcher environment: no hooks, successful download. -/
def sDlEnv : DlEnv := { pre := [], post := [], send := sendOk }

/-- A sample dispatcher environment: the default parse yields the response
itself, urljoin keeps the relative part, sessions close normally. -/
def sDispatchEnv : DispatchEnv :=
  { parse := fun res => .gen [.resp res],
    urljoinFn := fun _ r => r,
    closeFail := fun _ => none }

/-- A dispatcher environment whose parse callback returns a tuple holding one
request: a materialised immutable sequence (a Sequence that is not a
MutableSequence). -/
def tupDenv : DispatchEnv :=
  { parse := fun _ => .tup [.req sReq2],
    urljoinFn := fun _ r => r,
    closeFail := fun _ => none }

/-- A dispatcher environment whose parse callback yields nothing and whose
sessions raise OSError when closed. -/
def closeFailDenv : DispatchEnv :=
  { parse := fun _ => .gen [],
    urljoinFn := fun _ r => r,
    closeFail := fun _ => some (.plain "OSError") }

/-- A response carrying a live session with handle 7. -/
def sessResp : Resp := { url := "https://a.example/x", req := sReq, session := some 7 }

/-- A dispatcher environment whose parse callback yields two requests with
session left at the default False, over a response with a live session. -/
def twoReqDenv : DispatchEnv :=
  { parse := fun _ => .gen [.req { url := "/one" }, .req { url := "/two" }],
    urljoinFn := fun _ r => r,
    closeFail := fun _ => none }

/-- Spec-side description of the pre-download composition for comparison with
the embedding: the handlers applied in order, each receiving the previous
handler's result, defined only while every handler returns a Request. -/
def preChainThread : List PreHandler → Req → Option Req
  | [], r => some r
  | h :: hs, r =>
    match h r with
    | .ret (.req r2) => preChainThread hs r2
    | _ => none

/-- An enqueue-only state change: the completed counter is untouched and the
issued counter grows exactly as much as the outstanding total. -/
def enqOnly (s s2 : SpState) : Prop :=
  s2.responseCount = s.responseCount ∧
  s2.requestCount + outstanding s = s.requestCount + outstanding s2

/-! # Theorems -/

/-- prepareReq does not touch the retry counter. -/
theorem prepareReq_retryNum (cfg : Cfg) (r : Req) :
    (prepareReq cfg r).retryNum = r.retryNum := by
  unfold prepareReq addDefaultHeader
  by_cases h : r.timeout.isNone <;> simp [h]

/-- prepareReq does not touch the url. -/
theorem prepareReq_url (cfg : Cfg) (r : Req) :
    (prepareReq cfg r).url = r.url := by
  unfold prepareReq addDefaultHeader
  by_cases h : r.timeout.isNone <;> simp [h]

/-- prepareReq does not touch the session field. -/
theorem prepareReq_session (cfg : Cfg) (r : Req) :
    (prepareReq cfg r).session = r.session := by
  unfold prepareReq addDefaultHeader
  by_cases h : r.timeout.isNone <;> simp [h]

/-- _add_request always increments the issued counter by one. -/
theorem addRequest_requestCount (cfg : Cfg) (s : SpState) (r : Req) :
    (addRequest cfg s r).requestCount = s.requestCount + 1 := by
  by_cases h : (prepareReq cfg r).retryNum > 0 ∧ cfg.retryDelay > 0 <;>
    simp [addRequest, h]

/-- _add_request does not touch the completed counter. -/
theorem addRequest_responseCount (cfg : Cfg) (s : SpState) (r : Req) :
    (addRequest cfg s r).responseCount = s.responseCount := by
  by_cases h : (prepareReq cfg r).retryNum > 0 ∧ cfg.retryDelay > 0 <;>
    simp [addRequest, h]

/-- A request that is not a retry is enqueued on the plain FIFO. -/
theorem addRequest_queue_of_no_retry (cfg : Cfg) (s : SpState) (r : Req)
    (h : r.retryNum = 0) :
    (addRequest cfg s r).queue = s.queue ++ [prepareReq cfg r] ∧
    (addRequest cfg s r).delayed = s.delayed := by
  unfold addRequest
  rw [if_neg]
  · exact ⟨rfl, rfl⟩
  · intro hc
    rw [prepareReq_retryNum, h] at hc
    omega

/-- Running a pre-download chain prefix to completion continues on the
appended handlers from the reached request. -/
theorem preDownloadGo_append_ok (u : String) (gs : List PreHandler) :
    ∀ (fs : List PreHandler) (req r : Req),
      preDownloadGo u fs req = .ok r →
      preDownloadGo u (fs ++ gs) req = preDownloadGo u gs r := by
  intro fs
  induction fs with
  | nil =>
    intro req r h
    simp only [preDownloadGo] at h
    cases h
    rfl
  | cons f fs ih =>
    intro req r h
    simp only [preDownloadGo, List.cons_append] at h ⊢
    revert h
    cases f req with
    | exn e => intro h; exact Except.noConfusion h
    | ret v =>
      cases v with
      | req r2 => intro h; exact ih _ _ h
      | pyNone => intro h; exact Except.noConfusion h
      | resp r2 => intro h; exact Except.noConfusion h
      | str s => intro h; exact Except.noConfusion h
      | int n => intro h; exact Except.noConfusion h

/-- Running a post-download chain prefix to completion continues on the
appended handlers from the reached response. -/
theorem postDownloadGo_append_ok (u : String) (gs : List PostHandler) :
    ∀ (fs : List PostHandler) (res r : Resp),
      postDownloadGo u fs res = .ok r →
      postDownloadGo u (fs ++ gs) res = postDownloadGo u gs r := by
  intro fs
  induction fs with
  | nil =>
    intro res r h
    simp only [postDownloadGo] at h
    cases h
    rfl
  | cons f fs ih =>
    intro res r h
    simp only [postDownloadGo, List.cons_append] at h ⊢
    revert h
    cases f res with
    | exn e => intro h; exact Except.noConfusion h
    | ret v =>
      cases v with
      | resp r2 => intro h; exact ih _ _ h
      | req r2 => intro h; exact Except.noConfusion h
      | pyNone => intro h; exact Except.noConfusion h
      | str s => intro h; exact Except.noConfusion h
      | int n => intro h; exact Except.noConfusion h

/-- Running a pipe chain prefix to completion continues on the appended
handlers from the reached value. -/
theorem pipesGo_append_ok (gs : List PipeHandler) (res : Resp) :
    ∀ (fs : List PipeHandler) (item v : PyVal),
      pipesGo fs item res = some v →
      pipesGo (fs ++ gs) item res = pipesGo gs v res := by
  intro fs
  induction fs with
  | nil =>
    intro item v h
    simp only [pipesGo] at h
    cases h
    rfl
  | cons f fs ih =>
    intro item v h
    simp only [pipesGo, List.cons_append] at h ⊢
    cases hfv : f item res with
    | pyNone => rw [hfv] at h; simp at h
    | req r => rw [hfv] at h; exact ih _ _ h
    | resp r => rw [hfv] at h; exact ih _ _ h
    | str s => rw [hfv] at h; exact ih _ _ h
    | int n => rw [hfv] at h; exact ih _ _ h

/-- A nonempty chain is not replaced by the collect fallback. -/
theorem startPipes_ne_nil (pipes : List PipeHandler) (c : PipeHandler)
    (item : PyVal) (res : Resp) (h : pipes ≠ []) :
    startPipes pipes c item res = pipesGo pipes item res := by
  unfold startPipes
  rw [if_neg]
  simp [List.isEmpty_iff, h]

/-- A chain on which the spec-side sequential composition succeeds runs to
the same request in the embedding, whatever url the failure path would
use. -/
theorem preDownloadGo_of_thread (u : String) :
    ∀ (hs : List PreHandler) (req r : Req),
      preChainThread hs req = some r → preDownloadGo u hs req = .ok r := by
  intro hs
  induction hs with
  | nil =>
    intro req r h
    simp only [preChainThread] at h
    cases h
    rfl
  | cons f fs ih =>
    intro req r h
    simp only [preChainThread] at h
    simp only [preDownloadGo]
    revert h
    cases f req with
    | exn e => intro h; exact Option.noConfusion h
    | ret v =>
      cases v with
      | req r2 => intro h; exact ih r2 r h
      | pyNone => intro h; exact Option.noConfusion h
      | resp r2 => intro h; exact Option.noConfusion h
      | str s2 => intro h; exact Option.noConfusion h
      | int n => intro h; exact Option.noConfusion h

/-- C4: pre-download handlers run sequentially, each receiving the previous
handler's result — conjunct (1): the embedding agrees with the spec-side
sequential composition preChainThread whenever every handler returns a
Request.  Conjunct (2): if some handler returns a non-Request value, the
chain aborts (the handlers after it never influence the outcome) and the
request is rejected with RequestIgnored whose cause is None (carrying the
original request).  Conjunct (3): if some handler raises E, the chain aborts
with RequestIgnored whose cause is E when E is not itself a RequestIgnored,
and with E itself (only its req attribute filled in) when it is. -/
theorem pre_download_chain_semantics :
    (∀ (hs : List PreHandler) (req r : Req),
        preChainThread hs req = some r → preDownloadStep hs req = .ok r) ∧
    (∀ (fs gs gs' : List PreHandler) (h : PreHandler) (req r : Req) (v : PyVal),
        preDownloadGo req.url fs req = .ok r → h r = .ret v →
        v.isRequestVal = false →
        preDownloadStep (fs ++ h :: gs) req =
          .error (.spider .requestIgnored req.url none false none (some req) none) ∧
        preDownloadStep (fs ++ h :: gs) req = preDownloadStep (fs ++ h :: gs') req) ∧
    (∀ (fs gs : List PreHandler) (h : PreHandler) (req r : Req) (e : PyExn),
        preDownloadGo req.url fs req = .ok r → h r = .exn e →
        (e.isRequestIgnored = false →
          preDownloadStep (fs ++ h :: gs) req =
            .error (.spider .requestIgnored req.url (some e) false none (some req) none)) ∧
        (e.isRequestIgnored = true →
          preDownloadStep (fs ++ h :: gs) req = .error (e.setErrReq req))) := by
  refine ⟨?_, ?_, ?_⟩
  · intro hs req r h
    unfold preDownloadStep preDownload
    rw [preDownloadGo_of_thread req.url hs req r h]
  · intro fs gs gs' h req r v hfs hh hv
    have key : ∀ (ks : List PreHandler),
        preDownload (fs ++ h :: ks) req =
          .error (.spider .requestIgnored req.url none false none none none) := by
      intro ks
      unfold preDownload
      rw [preDownloadGo_append_ok req.url (h :: ks) fs req r hfs]
      simp only [preDownloadGo]
      rw [hh]
      cases v with
      | req r2 => simp [PyVal.isRequestVal] at hv
      | pyNone => rfl
      | resp r2 => rfl
      | str s2 => rfl
      | int n => rfl
    constructor
    · unfold preDownloadStep
      rw [key gs]
      rfl
    · unfold preDownloadStep
      rw [key gs, key gs']
  · intro fs gs h req r e hfs hh
    have key : preDownload (fs ++ h :: gs) req = .error e := by
      unfold preDownload
      rw [preDownloadGo_append_ok req.url (h :: gs) fs req r hfs]
      simp only [preDownloadGo]
      rw [hh]
    constructor
    · intro hne
      unfold preDownloadStep
      rw [key]
      show Except.error ((wrapRequestIgnored req.url e).setErrReq req) = _
      unfold wrapRequestIgnored
      rw [hne]
      rfl
    · intro hyes
      unfold preDownloadStep
      rw [key]
      show Except.error ((wrapRequestIgnored req.url e).setErrReq req) = _
      unfold wrapRequestIgnored
      rw [hyes]
      rfl

/-- Witness for C4 at concrete chains: a pass-through chain succeeds; a
handler returning None after a pass-through aborts with a causeless
RequestIgnored whatever follows it; a raising handler aborts with the raised
ValueError as cause. -/
theorem pre_download_chain_semantics_witness :
    preDownloadStep [hPass] sReq = .ok sReq ∧
    preDownloadStep [hPass, hNone, hPass] sReq =
      .error (.spider .requestIgnored sReq.url none false none (some sReq) none) ∧
    preDownloadStep [hRaise] sReq =
      .error (.spider .requestIgnored sReq.url (some (.plain "ValueError")) false
        none (some sReq) none) := by
  refine ⟨?_, ?_, ?_⟩
  · exact pre_download_chain_semantics.1 [hPass] sReq sReq rfl
  · exact (pre_download_chain_semantics.2.1 [hPass] [hPass] [] hNone sReq sReq
      .pyNone rfl rfl rfl).1
  · exact (pre_download_chain_semantics.2.2 [] [] hRaise sReq sReq
      (.plain "ValueError") rfl rfl).1 rfl

/-- C5: an after-download handler returning a Request (after a prefix that
threads the response) aborts the chain with ResponseIgnored whose new_req is
that request; the dispatcher's error classifier then enqueues new_req as a
fresh request: the issued counter grows by one, the request (after the usual
enqueue-time preparation) lands on the plain FIFO, and no error is
reported (the ResponseIgnored has no cause). -/
theorem post_download_request_abort_reenqueue :
    ∀ (fs gs : List PostHandler) (h : PostHandler) (req : Req) (res r : Resp)
      (newr : Req) (cfg : Cfg) (s : SpState),
      postDownloadGo res.req.url fs res = .ok r →
      h r = .ret (.req newr) →
      postDownloadStep (fs ++ h :: gs) req res =
        .error (.spider .responseIgnored res.req.url none false (some newr)
          (some req) (some res)) ∧
      (checkError cfg s (.spider .responseIgnored res.req.url none false (some newr)
          (some req) (some res))).1.requestCount = s.requestCount + 1 ∧
      (newr.retryNum = 0 →
        (checkError cfg s (.spider .responseIgnored res.req.url none false (some newr)
            (some req) (some res))).1.queue = s.queue ++ [prepareReq cfg newr]) ∧
      (checkError cfg s (.spider .responseIgnored res.req.url none false (some newr)
          (some req) (some res))).2 = none := by
  intro fs gs h req res r newr cfg s hfs hh
  have key : postDownload (fs ++ h :: gs) res =
      .error (.spider .responseIgnored res.req.url none false (some newr) none none) := by
    unfold postDownload
    rw [postDownloadGo_append_ok res.req.url (h :: gs) fs res r hfs]
    simp only [postDownloadGo]
    rw [hh]
  have hce : checkError cfg s (.spider .responseIgnored res.req.url none false (some newr)
      (some req) (some res)) = (addRequest cfg s newr, none) := rfl
  refine ⟨?_, ?_, ?_, ?_⟩
  · unfold postDownloadStep
    rw [key]
    rfl
  · rw [hce]
    exact addRequest_requestCount cfg s newr
  · intro h0
    rw [hce]
    exact (addRequest_queue_of_no_retry cfg s newr h0).1
  · rw [hce]

/-- Witness for C5 at a concrete chain: a pass-through prefix, then a handler
returning the request sReq2; the classifier enqueues sReq2 and absorbs the
error. -/
theorem post_download_request_abort_reenqueue_witness :
    postDownloadStep [hPostPass, hPostReq] sReq sResp =
      .error (.spider .responseIgnored sResp.req.url none false (some sReq2)
        (some sReq) (some sResp)) ∧
    (checkError {} {} (.spider .responseIgnored sResp.req.url none false (some sReq2)
        (some sReq) (some sResp))).1.requestCount = 1 ∧
    (checkError {} {} (.spider .responseIgnored sResp.req.url none false (some sReq2)
        (some sReq) (some sResp))).1.queue = [prepareReq {} sReq2] := by
  have h := post_download_request_abort_reenqueue [hPostPass] [] hPostReq sReq sResp
    sResp sReq2 {} {} rfl rfl
  exact ⟨h.1, h.2.1, by rw [h.2.2.1 rfl]; rfl⟩

/-- The error a retryably failing attempt emits, spelled out: a DownLoadError
with the ConnectionError as cause, need_retry set, carrying the request. -/
theorem retryFailure_eq (req : Req) :
    retryFailure req
      = .spider .downloadError req.url (some .connectionError) true none (some req) none :=
  rfl

/-- _add_request does not touch the failed-URL list. -/
theorem addRequest_failedUrls (cfg : Cfg) (s : SpState) (r : Req) :
    (addRequest cfg s r).failedUrls = s.failedUrls := by
  by_cases hc : (prepareReq cfg r).retryNum > 0 ∧ cfg.retryDelay > 0 <;>
    simp [addRequest, hc]

/-- _check_error on a retryable DownLoadError below the budget: bump the
retry counter, re-enqueue, report nothing. -/
theorem checkError_download_retry (cfg : Cfg) (s : SpState) (req : Req)
    (h : req.retryNum < cfg.retryTimes) :
    checkError cfg s (retryFailure req)
      = (addRequest cfg s { req with retryNum := req.retryNum + 1 }, none) := by
  unfold checkError
  rw [retryFailure_eq]
  simp only [PyExn.isRequestIgnored, PyExn.isResponseIgnored, PyExn.isDownloadError,
    PyExn.errReqOf, PyExn.needRetryOf, Option.getD]
  simp [h]

/-- _check_error on a retryable DownLoadError at or over the budget: record
the failed url and report the error; nothing is re-enqueued. -/
theorem checkError_download_terminal (cfg : Cfg) (s : SpState) (req : Req)
    (h : ¬ req.retryNum < cfg.retryTimes) :
    checkError cfg s (retryFailure req)
      = ({ s with failedUrls := s.failedUrls ++ [req.url] }, some (retryFailure req)) := by
  unfold checkError
  rw [retryFailure_eq]
  simp only [PyExn.isRequestIgnored, PyExn.isResponseIgnored, PyExn.isDownloadError,
    PyExn.errReqOf, PyExn.needRetryOf, Option.getD]
  simp [h]

/-- The attempt loop at or over the budget performs exactly one attempt and
reports exactly one terminal error. -/
theorem retryRun_terminal (cfg : Cfg) (fuel : Nat) (s : SpState) (req : Req)
    (h : ¬ req.retryNum < cfg.retryTimes) :
    retryRun cfg (fuel + 1) s req
      = (1, { s with failedUrls := s.failedUrls ++ [req.url] }, [retryFailure req]) := by
  unfold retryRun
  rw [checkError_download_terminal cfg s req h]

/-- The attempt loop below the budget recurses on the bumped, prepared
request over the grown state. -/
theorem retryRun_retry (cfg : Cfg) (fuel : Nat) (s : SpState) (req : Req)
    (h : req.retryNum < cfg.retryTimes) :
    retryRun cfg (fuel + 1) s req
      = ((retryRun cfg fuel (addRequest cfg s { req with retryNum := req.retryNum + 1 })
            (prepareReq cfg { req with retryNum := req.retryNum + 1 })).1 + 1,
         (retryRun cfg fuel (addRequest cfg s { req with retryNum := req.retryNum + 1 })
            (prepareReq cfg { req with retryNum := req.retryNum + 1 })).2.1,
         (retryRun cfg fuel (addRequest cfg s { req with retryNum := req.retryNum + 1 })
            (prepareReq cfg { req with retryNum := req.retryNum + 1 })).2.2) := by
  conv_lhs => rw [retryRun]
  rw [checkError_download_retry cfg s req h]

/-- A request entering the attempt loop with k budget steps left is attempted
exactly k + 1 times, the last attempt producing the single terminal error and
the failed-url record under the original url. -/
theorem retryRun_exhaust (cfg : Cfg) :
    ∀ (k : Nat) (s : SpState) (req : Req),
      cfg.retryTimes = req.retryNum + k →
      ∃ s2 r2, retryRun cfg (k + 1) s req = (k + 1, s2, [retryFailure r2]) ∧
        r2.url = req.url ∧ s2.failedUrls = s.failedUrls ++ [req.url] := by
  intro k
  induction k with
  | zero =>
    intro s req h
    have hn : ¬ req.retryNum < cfg.retryTimes := by omega
    exact ⟨_, req, retryRun_terminal cfg 0 s req hn, rfl, rfl⟩
  | succ k ih =>
    intro s req h
    have hlt : req.retryNum < cfg.retryTimes := by omega
    have hnext : cfg.retryTimes
        = (prepareReq cfg { req with retryNum := req.retryNum + 1 }).retryNum + k := by
      rw [prepareReq_retryNum]
      show cfg.retryTimes = req.retryNum + 1 + k
      omega
    obtain ⟨s2, r2, hrun, hurl, hfail⟩ :=
      ih (addRequest cfg s { req with retryNum := req.retryNum + 1 })
        (prepareReq cfg { req with retryNum := req.retryNum + 1 }) hnext
    refine ⟨s2, r2, ?_, ?_, ?_⟩
    · rw [retryRun_retry cfg (k + 1) s req hlt, hrun]
    · rw [hurl, prepareReq_url]
    · rw [hfail, prepareReq_url, addRequest_failedUrls]

/-- C2: a request (with the spec-initial retry counter 0) all of whose
download attempts fail retryably is attempted exactly RETRY_TIMES + 1 times
and produces exactly one terminal DownLoadError (recording the url in the
failed list); with RETRY_TIMES = 0 the single attempt is terminal — no retry
is performed; and a request whose retry_num has reached the budget is never
re-enqueued by the classifier: both queues are left untouched and the error
is reported as terminal. -/
theorem retry_budget_semantics :
    (∀ (cfg : Cfg) (s : SpState) (req : Req), req.retryNum = 0 →
      ∃ s2 r2, retryRun cfg (cfg.retryTimes + 1) s req
          = (cfg.retryTimes + 1, s2, [retryFailure r2]) ∧
        (retryFailure r2).isDownloadError = true ∧
        s2.failedUrls = s.failedUrls ++ [req.url]) ∧
    (∀ (cfg : Cfg) (s : SpState) (req : Req), cfg.retryTimes = 0 → req.retryNum = 0 →
      retryRun cfg 1 s req
        = (1, { s with failedUrls := s.failedUrls ++ [req.url] }, [retryFailure req])) ∧
    (∀ (cfg : Cfg) (s : SpState) (req : Req), cfg.retryTimes ≤ req.retryNum →
      (checkError cfg s (retryFailure req)).1.queue = s.queue ∧
      (checkError cfg s (retryFailure req)).1.delayed = s.delayed ∧
      (checkError cfg s (retryFailure req)).2 = some (retryFailure req)) := by
  refine ⟨?_, ?_, ?_⟩
  · intro cfg s req h0
    obtain ⟨s2, r2, hrun, hurl, hfail⟩ := retryRun_exhaust cfg cfg.retryTimes s req (by omega)
    exact ⟨s2, r2, hrun, rfl, hfail⟩
  · intro cfg s req hrt h0
    exact retryRun_terminal cfg 0 s req (by omega)
  · intro cfg s req hle
    rw [checkError_download_terminal cfg s req (by omega)]
    exact ⟨rfl, rfl, rfl⟩

/-- Witness for C2 at concrete inputs: with RETRY_TIMES = 0 the seed request
is attempted once and fails terminally; a request at the budget is not
re-enqueued; with RETRY_TIMES = 2 a fresh request is attempted 3 times. -/
theorem retry_budget_semantics_witness :
    retryRun { retryTimes := 0 } 1 {} sReq
      = (1, { failedUrls := [sReq.url] }, [retryFailure sReq]) ∧
    (checkError { retryTimes := 0 } {} (retryFailure sReq)).1.queue = [] ∧
    (retryRun { retryTimes := 2 } 3 {} sReq).1 = 3 := by
  have h := retry_budget_semantics
  refine ⟨h.2.1 { retryTimes := 0 } {} sReq rfl rfl,
          (h.2.2 { retryTimes := 0 } {} sReq (by decide)).1, ?_⟩
  obtain ⟨s2, r2, hrun, _, _⟩ := h.1 { retryTimes := 2 } {} sReq rfl
  rw [hrun]

/-- C3 (code bug): the claim says every newly constructed Request has
retry_num equal to 0; in the source, Request.__init__
(src/mocy/request.py lines 8-44) assigns no retry_num attribute at all (the
parameter and the assignment are commented out), while Spider._add_request
reads req.retry_num on every enqueue — so constructing Request(url) and
enqueueing it raises AttributeError instead of reading 0. -/
theorem request_ctor_omits_retry_num :
    "retry_num" ∉ requestInitAssignedAttrs ∧ "retry_num" ∈ addRequestReadAttrs := by
  decide

/-- C8 (code bug): the claim says object entries are resolved to bound
methods (or replaced by identity) regardless of position; in the source the
scan of Spider._check_handlers returns on the FIRST plain-function entry
(the return on src/mocy/spider.py line 253 ends the whole loop), so an
object entry after a plain function is left untouched.  At the concrete
chain [plain function, object without the named method], check leaves the
object entry in place, while resolution of that entry would substitute the
identity function. -/
theorem check_handlers_stops_at_function :
    check [.fn 0, .obj none] = [.fn 0, .obj none] ∧
    resolveEntry (.obj none) = .ident ∧
    ChainEntry.obj none ≠ ChainEntry.ident := by
  decide

/-- Every branch of the fetcher loop body publishes exactly one item on the
response channel for the request it dequeued. -/
theorem downloadIterEmits_length (env : DlEnv) (cfg : Cfg) :
    ∀ req, (downloadIterEmits env cfg req).length = 1 := by
  intro req
  unfold downloadIterEmits
  cases preDownloadStep env.pre req with
  | error e => rfl
  | ok req2 =>
    dsimp only
    cases downloadBlock env cfg req2 with
    | error e => rfl
    | ok res =>
      dsimp only
      cases postDownloadStep env.post req2 res with
      | error e => rfl
      | ok res2 => rfl

/-- enqOnly is reflexive. -/
theorem enqOnly_refl (s : SpState) : enqOnly s s := ⟨rfl, rfl⟩

/-- enqOnly composes. -/
theorem enqOnly_trans {s1 s2 s3 : SpState} (h1 : enqOnly s1 s2) (h2 : enqOnly s2 s3) :
    enqOnly s1 s3 := by
  obtain ⟨ha, hb⟩ := h1
  obtain ⟨hc, hd⟩ := h2
  exact ⟨by rw [hc, ha], by omega⟩

/-- _add_request is an enqueue-only state change. -/
theorem addRequest_enqOnly (cfg : Cfg) (s : SpState) (r : Req) :
    enqOnly s (addRequest cfg s r) := by
  by_cases hc : (prepareReq cfg r).retryNum > 0 ∧ cfg.retryDelay > 0 <;>
    simp [addRequest, hc, enqOnly, outstanding] <;> omega

/-- _check_error is an enqueue-only state change (it enqueues at most one
request and otherwise only records a failed url). -/
theorem checkError_enqOnly (cfg : Cfg) (s : SpState) (e : PyExn) :
    enqOnly s (checkError cfg s e).1 := by
  unfold checkError
  by_cases h1 : e.isRequestIgnored = true
  · by_cases h2 : e.causeOf.isSome = true <;> simp [h1, h2, enqOnly_refl]
  · by_cases h2 : e.isResponseIgnored = true
    · cases hn : e.newReqOf with
      | some r =>
        by_cases h3 : e.causeOf.isSome = true <;>
          simp [h1, h2, h3, hn] <;> exact addRequest_enqOnly cfg s r
      | none =>
        by_cases h3 : e.causeOf.isSome = true <;>
          simp [h1, h2, h3, hn, enqOnly_refl]
    · by_cases h3 : e.isDownloadError = true
      · by_cases h4 : e.needRetryOf = true ∧ (e.errReqOf.getD {}).retryNum < cfg.retryTimes
        · simp [h1, h2, h3, h4]
          exact addRequest_enqOnly cfg s _
        · simp [h1, h2, h3, h4]
          exact ⟨rfl, by simp [outstanding]⟩
      · simp [h1, h2, h3, enqOnly_refl]

/-- One parse-loop iteration is an enqueue-only state change. -/
theorem yieldStep_enqOnly (denv : DispatchEnv) (cfg : Cfg) (res : Resp)
    (acc : LoopAcc) (v : PyVal) :
    enqOnly acc.st (yieldStep denv cfg res acc v).st := by
  cases v with
  | req r =>
    simp only [yieldStep]
    exact addRequest_enqOnly cfg acc.st _
  | pyNone => exact enqOnly_refl _
  | resp r => exact enqOnly_refl _
  | str s2 => exact enqOnly_refl _
  | int n => exact enqOnly_refl _

/-- The whole parse loop is an enqueue-only state change. -/
theorem foldl_yieldStep_enqOnly (denv : DispatchEnv) (cfg : Cfg) (res : Resp) :
    ∀ (items : List PyVal) (acc : LoopAcc),
      enqOnly acc.st ((items.foldl (yieldStep denv cfg res) acc).st) := by
  intro items
  induction items with
  | nil => intro acc; exact enqOnly_refl _
  | cons v vs ih =>
    intro acc
    rw [List.foldl_cons]
    exact enqOnly_trans (yieldStep_enqOnly denv cfg res acc v) (ih _)

/-- Processing one response is an enqueue-only state change. -/
theorem dispatchResponse_enqOnly (denv : DispatchEnv) (cfg : Cfg) (s : SpState)
    (res : Resp) :
    enqOnly s (dispatchResponse denv cfg s res).1 := by
  unfold dispatchResponse
  cases denv.parse res with
  | raises e => exact enqOnly_refl _
  | mutSeq items => exact foldl_yieldStep_enqOnly denv cfg res items _
  | gen items => exact foldl_yieldStep_enqOnly denv cfg res items _
  | tup items => exact enqOnly_refl _
  | scalar v => exact enqOnly_refl _

/-- Every engine step preserves the completion-accounting invariant. -/
theorem counterInv_step (denv : DispatchEnv) (env : DlEnv) (cfg : Cfg)
    {s s2 : SpState} (hinv : counterInv s) (hstep : Step denv env cfg s s2) :
    counterInv s2 := by
  cases hstep with
  | seed r =>
    obtain ⟨h1, h2⟩ := addRequest_enqOnly cfg s r
    unfold counterInv at *
    omega
  | graduate r ds hdel =>
    unfold counterInv outstanding at *
    rw [hdel] at hinv
    simp only [List.length_append, List.length_cons, List.length_nil] at *
    omega
  | take r q hq =>
    unfold counterInv outstanding at *
    rw [hq] at hinv
    simp only [List.length_append, List.length_cons, List.length_nil] at *
    omega
  | emit r fl1 fl2 hfl =>
    have hlen := downloadIterEmits_length env cfg r
    unfold counterInv outstanding at *
    rw [hfl] at hinv
    simp only [List.length_append, List.length_cons, List.length_nil] at *
    omega
  | dispatchOk res rest hchan hne =>
    obtain ⟨h1, h2⟩ := dispatchResponse_enqOnly denv cfg
      { s with chan := rest, responseCount := s.responseCount + 1 } res
    unfold counterInv outstanding at *
    rw [hchan] at hinv
    simp only [List.length_cons] at *
    omega
  | dispatchErr e rest hchan hne =>
    obtain ⟨h1, h2⟩ := checkError_enqOnly cfg
      { s with chan := rest, responseCount := s.responseCount + 1 } e
    unfold counterInv outstanding at *
    rw [hchan] at hinv
    simp only [List.length_cons] at *
    omega

/-- The completion-accounting invariant holds in every reachable state. -/
theorem counterInv_reachable (denv : DispatchEnv) (env : DlEnv) (cfg : Cfg) :
    ∀ s, Reachable denv env cfg s → counterInv s := by
  intro s h
  induction h with
  | refl => exact rfl
  | tail hab hbc ih => exact counterInv_step denv env cfg ih hbc

/-- Under the invariant, the loop condition of the dispatcher flips exactly
when nothing is outstanding. -/
theorem completed_iff_outstanding {s : SpState} (h : counterInv s) :
    completed s = true ↔ outstanding s = 0 := by
  unfold completed counterInv at *
  simp only [beq_iff_eq]
  omega

/-- C1: every branch of a fetcher iteration publishes exactly one item —
a Response or a SpiderError — on the response channel for the request it
dequeued, and in every reachable engine state the issued counter equals the
completed counter plus the outstanding requests; hence the dispatcher loop
condition while not _completed fails exactly when no request is queued,
delayed, held by a fetcher, or waiting on the channel. -/
theorem engine_accounting_and_termination
    (denv : DispatchEnv) (env : DlEnv) (cfg : Cfg) :
    (∀ req, (downloadIterEmits env cfg req).length = 1) ∧
    (∀ s, Reachable denv env cfg s →
      counterInv s ∧ (completed s = true ↔ outstanding s = 0)) := by
  refine ⟨downloadIterEmits_length env cfg, ?_⟩
  intro s h
  have hinv := counterInv_reachable denv env cfg s h
  exact ⟨hinv, completed_iff_outstanding hinv⟩

/-- Witness for C1: the successful-download environment emits exactly one
channel item for the sample request, and in the pristine reachable state the
loop condition and the outstanding count agree. -/
theorem engine_accounting_and_termination_witness :
    (downloadIterEmits sDlEnv {} sReq).length = 1 ∧
    (completed ({} : SpState) = true ↔ outstanding ({} : SpState) = 0) := by
  have h := engine_accounting_and_termination sDispatchEnv sDlEnv {}
  exact ⟨h.1 sReq, (h.2 {} Relation.ReflTransGen.refl).2⟩

/-- C6: pipe handlers run in order, each receiving the previous handler's
non-null result; a handler returning None stops the chain (the item is
dropped, the outcome is none rather than an error, and the result does not
depend on the handlers after it, which are therefore never invoked); the
final collected value is the last handler's return value; and with an empty
pipe chain the spider's collect method is invoked with the item.  The three
conjuncts state: (1) a chain whose prefix threads the item to v and whose
last handler maps v to a non-None w collects w; (2) once a handler returns
None the result is none whatever the suffix; (3) the empty chain reduces to
one invocation of collect on the item. -/
theorem pipe_chain_semantics :
    (∀ (fs : List PipeHandler) (f c : PipeHandler) (item v w : PyVal) (res : Resp),
        pipesGo fs item res = some v → f v res = w → w ≠ .pyNone →
        startPipes (fs ++ [f]) c item res = some w) ∧
    (∀ (fs gs gs' : List PipeHandler) (f c : PipeHandler) (item v : PyVal) (res : Resp),
        pipesGo fs item res = some v → f v res = .pyNone →
        startPipes (fs ++ f :: gs) c item res = none ∧
        startPipes (fs ++ f :: gs) c item res = startPipes (fs ++ f :: gs') c item res) ∧
    (∀ (c : PipeHandler) (item : PyVal) (res : Resp),
        (c item res = .pyNone → startPipes [] c item res = none) ∧
        (∀ w, c item res = w → w ≠ .pyNone → startPipes [] c item res = some w)) := by
  refine ⟨?_, ?_, ?_⟩
  · intro fs f c item v w res hfs hf hw
    rw [startPipes_ne_nil _ _ _ _ (by simp)]
    rw [pipesGo_append_ok [f] res fs item v hfs]
    simp only [pipesGo]
    rw [hf]
    cases w with
    | pyNone => exact absurd rfl hw
    | req r => rfl
    | resp r => rfl
    | str s => rfl
    | int n => rfl
  · intro fs gs gs' f c item v res hfs hf
    have key : ∀ (ks : List PipeHandler),
        startPipes (fs ++ f :: ks) c item res = none := by
      intro ks
      rw [startPipes_ne_nil _ _ _ _ (by simp)]
      rw [pipesGo_append_ok (f :: ks) res fs item v hfs]
      simp only [pipesGo]
      rw [hf]
    exact ⟨key gs, by rw [key gs, key gs']⟩
  · intro c item res
    constructor
    · intro h
      unfold startPipes
      simp only [List.isEmpty_nil, if_pos]
      simp only [pipesGo]
      rw [h]
    · intro w hw hne
      unfold startPipes
      simp only [List.isEmpty_nil, if_pos]
      simp only [pipesGo]
      rw [hw]
      cases w with
      | pyNone => exact absurd rfl hne
      | req r => rfl
      | resp r => rfl
      | str s => rfl
      | int n => rfl

/-- The session-closing epilogue touches neither the yielded items nor the
yielded errors. -/
theorem closeStage_keeps_out (denv : DispatchEnv) (res : Resp) (b : Bool)
    (out : DispatchOut) :
    (closeStage denv res b out).yielded = out.yielded ∧
    (closeStage denv res b out).errors = out.errors := by
  unfold closeStage
  cases res.session with
  | none => exact ⟨rfl, rfl⟩
  | some h =>
    cases b with
    | false => simp
    | true =>
      simp only [if_true]
      cases denv.closeFail h with
      | none => exact ⟨rfl, rfl⟩
      | some e => exact ⟨rfl, rfl⟩

/-- A yielded request increments the issued counter and leaves the yielded
items alone; any other yielded value is appended to the yielded items and
leaves the state alone. -/
theorem yieldStep_fields (denv : DispatchEnv) (cfg : Cfg) (res : Resp)
    (acc : LoopAcc) (v : PyVal) :
    (v.isRequestVal = true →
      (yieldStep denv cfg res acc v).st.requestCount = acc.st.requestCount + 1 ∧
      (yieldStep denv cfg res acc v).yielded = acc.yielded) ∧
    (v.isRequestVal = false →
      (yieldStep denv cfg res acc v).st = acc.st ∧
      (yieldStep denv cfg res acc v).yielded = acc.yielded ++ [v]) := by
  cases v with
  | req r =>
    refine ⟨fun _ => ⟨?_, rfl⟩, fun hf => by simp [PyVal.isRequestVal] at hf⟩
    exact addRequest_requestCount cfg acc.st _
  | pyNone => exact ⟨fun ht => by simp [PyVal.isRequestVal] at ht, fun _ => ⟨rfl, rfl⟩⟩
  | resp r => exact ⟨fun ht => by simp [PyVal.isRequestVal] at ht, fun _ => ⟨rfl, rfl⟩⟩
  | str s => exact ⟨fun ht => by simp [PyVal.isRequestVal] at ht, fun _ => ⟨rfl, rfl⟩⟩
  | int n => exact ⟨fun ht => by simp [PyVal.isRequestVal] at ht, fun _ => ⟨rfl, rfl⟩⟩

/-- Over the whole parse loop, the issued counter grows by the number of
yielded requests and the yielded items are exactly the non-request values in
order. -/
theorem foldl_yieldStep_counts (denv : DispatchEnv) (cfg : Cfg) (res : Resp) :
    ∀ (items : List PyVal) (acc : LoopAcc),
      (items.foldl (yieldStep denv cfg res) acc).st.requestCount
          = acc.st.requestCount + items.countP PyVal.isRequestVal ∧
      (items.foldl (yieldStep denv cfg res) acc).yielded
          = acc.yielded ++ items.filter (fun v => !v.isRequestVal) := by
  intro items
  induction items with
  | nil => intro acc; simp
  | cons x xs ih =>
    intro acc
    have hstep := yieldStep_fields denv cfg res acc x
    have hrec := ih (yieldStep denv cfg res acc x)
    simp only [List.foldl_cons, List.countP_cons, List.filter_cons]
    cases hx : x.isRequestVal with
    | true =>
      have h1 := hstep.1 hx
      refine ⟨?_, ?_⟩
      · rw [hrec.1, h1.1]
        simp
        omega
      · rw [hrec.2, h1.2]
        simp
    | false =>
      have h1 := hstep.2 hx
      refine ⟨?_, ?_⟩
      · rw [hrec.1, h1.1]
        simp
      · rw [hrec.2, h1.2]
        simp

/-- _add_request adds nothing to the queues except the one prepared
request. -/
theorem addRequest_mem (cfg : Cfg) (s : SpState) (r x : Req) :
    x ∈ (addRequest cfg s r).queue ++ (addRequest cfg s r).delayed →
    x ∈ s.queue ++ s.delayed ∨ x = prepareReq cfg r := by
  unfold addRequest
  by_cases hc : (prepareReq cfg r).retryNum > 0 ∧ cfg.retryDelay > 0 <;>
    simp [hc, List.mem_append] <;> tauto

/-- A yielded request that meets the transfer condition clears the
close_session flag, leaves the yielded items alone, and is enqueued carrying
the response's session handle. -/
theorem yieldStep_req_transfer (denv : DispatchEnv) (cfg : Cfg) (res : Resp)
    (acc : LoopAcc) (r : Req) (h0 : Nat)
    (hres : res.session = some h0)
    (hsess : r.session = .pyFalse ∨ r.session = .pyNone) :
    (yieldStep denv cfg res acc (.req r)).closeSession = false ∧
    (yieldStep denv cfg res acc (.req r)).yielded = acc.yielded ∧
    ∃ r3, (yieldStep denv cfg res acc (.req r)).st = addRequest cfg acc.st r3 ∧
      r3.session = .handle h0 := by
  unfold yieldStep
  dsimp only
  unfold transferSession
  rw [hres]
  dsimp only
  rw [if_pos hsess]
  dsimp only
  refine ⟨by simp, rfl, ⟨_, rfl, rfl⟩⟩

/-- A yielded request that does not meet the transfer condition keeps the
close_session flag. -/
theorem yieldStep_req_no_transfer (denv : DispatchEnv) (cfg : Cfg) (res : Resp)
    (acc : LoopAcc) (r : Req)
    (hsess : r.session ≠ .pyFalse ∧ r.session ≠ .pyNone) :
    (yieldStep denv cfg res acc (.req r)).closeSession = acc.closeSession := by
  unfold yieldStep
  dsimp only
  unfold transferSession
  cases res.session with
  | none => simp
  | some h =>
    dsimp only
    rw [if_neg]
    · simp
    · intro hc
      exact hc.elim (fun h1 => hsess.1 h1) (fun h1 => hsess.2 h1)

/-- Once cleared, the close_session flag stays cleared for the rest of the
parse loop. -/
theorem foldl_closeSession_false (denv : DispatchEnv) (cfg : Cfg) (res : Resp) :
    ∀ (items : List PyVal) (acc : LoopAcc), acc.closeSession = false →
      (items.foldl (yieldStep denv cfg res) acc).closeSession = false := by
  intro items
  induction items with
  | nil => intro acc h; exact h
  | cons v vs ih =>
    intro acc h
    rw [List.foldl_cons]
    apply ih
    cases v with
    | req r =>
      show (acc.closeSession && _) = false
      rw [h]
      rfl
    | pyNone => exact h
    | resp r => exact h
    | str s2 => exact h
    | int n => exact h

/-- If some yielded request takes ownership of the session, the loop ends
with close_session cleared. -/
theorem foldl_closeSession_of_take (denv : DispatchEnv) (cfg : Cfg) (res : Resp)
    (h0 : Nat) (hres : res.session = some h0) :
    ∀ (items : List PyVal) (acc : LoopAcc),
      (∃ v ∈ items, ∃ r, v = PyVal.req r ∧
        (r.session = .pyFalse ∨ r.session = .pyNone)) →
      (items.foldl (yieldStep denv cfg res) acc).closeSession = false := by
  intro items
  induction items with
  | nil => intro acc h; simp at h
  | cons v vs ih =>
    intro acc h
    rw [List.foldl_cons]
    rcases h with ⟨w, hw, r, rfl, hsess⟩
    rcases List.mem_cons.mp hw with rfl | hin
    · exact foldl_closeSession_false denv cfg res vs _
        (yieldStep_req_transfer denv cfg res acc r h0 hres hsess).1
    · exact ih _ ⟨_, hin, r, rfl, hsess⟩

/-- If no yielded request takes ownership of the session, the loop keeps the
close_session flag. -/
theorem foldl_closeSession_of_no_take (denv : DispatchEnv) (cfg : Cfg) (res : Resp) :
    ∀ (items : List PyVal) (acc : LoopAcc),
      (∀ r : Req, PyVal.req r ∈ items →
        r.session ≠ .pyFalse ∧ r.session ≠ .pyNone) →
      (items.foldl (yieldStep denv cfg res) acc).closeSession = acc.closeSession := by
  intro items
  induction items with
  | nil => intro acc _; rfl
  | cons v vs ih =>
    intro acc h
    rw [List.foldl_cons]
    have hrest : ∀ r : Req, PyVal.req r ∈ vs →
        r.session ≠ .pyFalse ∧ r.session ≠ .pyNone :=
      fun r hr => h r (List.mem_cons_of_mem _ hr)
    rw [ih _ hrest]
    cases v with
    | req r => exact yieldStep_req_no_transfer denv cfg res acc r (h r (List.mem_cons_self _ _))
    | pyNone => rfl
    | resp r => rfl
    | str s2 => rfl
    | int n => rfl

/-- With the close flag cleared, the epilogue does nothing. -/
theorem closeStage_skip (denv : DispatchEnv) (res : Resp) (out : DispatchOut) :
    closeStage denv res false out = out := by
  unfold closeStage
  cases res.session <;> simp

/-- With the close flag set and a session that closes normally, the epilogue
counts one close. -/
theorem closeStage_closes (denv : DispatchEnv) (res : Resp) (h0 : Nat)
    (out : DispatchOut) (hs : res.session = some h0)
    (hc : denv.closeFail h0 = none) :
    closeStage denv res true out = { out with sessionCloses := out.sessionCloses + 1 } := by
  unfold closeStage
  rw [hs]
  simp [hc]

/-- With the close flag set and a session whose close raises, the exception
escapes the dispatcher. -/
theorem closeStage_raises (denv : DispatchEnv) (res : Resp) (h0 : Nat)
    (out : DispatchOut) (e : PyExn) (hs : res.session = some h0)
    (hc : denv.closeFail h0 = some e) :
    closeStage denv res true out = { out with propagated := some e } := by
  unfold closeStage
  rw [hs]
  simp [hc]

/-- All requests that the parse loop adds to the queues carry the response's
session handle, when every yielded value is a request meeting the transfer
condition. -/
theorem foldl_yieldStep_session_mem (denv : DispatchEnv) (cfg : Cfg) (res : Resp)
    (h0 : Nat) (hres : res.session = some h0) :
    ∀ (items : List PyVal) (acc : LoopAcc),
      (∀ v ∈ items, ∃ r, v = PyVal.req r ∧
        (r.session = .pyFalse ∨ r.session = .pyNone)) →
      ∀ x, x ∈ (items.foldl (yieldStep denv cfg res) acc).st.queue
            ++ (items.foldl (yieldStep denv cfg res) acc).st.delayed →
        x ∈ acc.st.queue ++ acc.st.delayed ∨ x.session = .handle h0 := by
  intro items
  induction items with
  | nil => intro acc _ x hx; exact Or.inl hx
  | cons v vs ih =>
    intro acc hall x hx
    obtain ⟨r, rfl, hsess⟩ := hall v (List.mem_cons_self v vs)
    obtain ⟨hclose, hyld, r3, hst, hr3⟩ :=
      yieldStep_req_transfer denv cfg res acc r h0 hres hsess
    rw [List.foldl_cons] at hx
    have step := ih (yieldStep denv cfg res acc (.req r))
      (fun w hw => hall w (List.mem_cons_of_mem _ hw)) x hx
    rcases step with hmem | hsess2
    · rw [hst] at hmem
      rcases addRequest_mem cfg acc.st r3 x hmem with h | h
      · exact Or.inl h
      · right
        rw [h, prepareReq_session, hr3]
    · exact Or.inr hsess2

/-- C9 (amended): a parser returning a generator or a mutable sequence has
each element processed — requests are enqueued (the issued counter grows by
their number) and every other element is yielded to the pipe stage in order,
with no error; a parser returning a tuple (a materialised but immutable
sequence) or any non-sequence value is silently ignored: the engine state is
untouched, nothing is yielded and no error is produced. -/
theorem parse_result_dispatch_semantics :
    (∀ (denv : DispatchEnv) (cfg : Cfg) (s : SpState) (res : Resp) (items : List PyVal),
        denv.parse res = .mutSeq items ∨ denv.parse res = .gen items →
        (dispatchResponse denv cfg s res).1.requestCount
            = s.requestCount + items.countP PyVal.isRequestVal ∧
        (dispatchResponse denv cfg s res).2.yielded
            = items.filter (fun v => !v.isRequestVal) ∧
        (dispatchResponse denv cfg s res).2.errors = []) ∧
    (∀ (denv : DispatchEnv) (cfg : Cfg) (s : SpState) (res : Resp) (items : List PyVal),
        denv.parse res = .tup items →
        (dispatchResponse denv cfg s res).1 = s ∧
        (dispatchResponse denv cfg s res).2.yielded = [] ∧
        (dispatchResponse denv cfg s res).2.errors = []) ∧
    (∀ (denv : DispatchEnv) (cfg : Cfg) (s : SpState) (res : Resp) (v : PyVal),
        denv.parse res = .scalar v →
        (dispatchResponse denv cfg s res).1 = s ∧
        (dispatchResponse denv cfg s res).2.yielded = [] ∧
        (dispatchResponse denv cfg s res).2.errors = []) := by
  refine ⟨?_, ?_, ?_⟩
  · intro denv cfg s res items hpr
    have hfold := foldl_yieldStep_counts denv cfg res items
      { st := s, closeSession := true, yielded := [] }
    rcases hpr with hpr | hpr <;>
    · unfold dispatchResponse
      rw [hpr]
      dsimp only
      have hout := closeStage_keeps_out denv res
        (items.foldl (yieldStep denv cfg res)
          { st := s, closeSession := true, yielded := [] }).closeSession
        { yielded := (items.foldl (yieldStep denv cfg res)
            { st := s, closeSession := true, yielded := [] }).yielded }
      exact ⟨hfold.1, by rw [hout.1]; exact hfold.2, hout.2⟩
  · intro denv cfg s res items hpr
    unfold dispatchResponse
    rw [hpr]
    dsimp only
    have hout := closeStage_keeps_out denv res true {}
    exact ⟨rfl, hout.1, hout.2⟩
  · intro denv cfg s res v hpr
    unfold dispatchResponse
    rw [hpr]
    dsimp only
    have hout := closeStage_keeps_out denv res true {}
    exact ⟨rfl, hout.1, hout.2⟩

/-- Witness for C9 at concrete inputs: a generator yielding one response is
dispatched as one yielded item; a tuple return leaves the engine state
untouched. -/
theorem parse_result_dispatch_semantics_witness :
    (dispatchResponse sDispatchEnv {} {} sResp).1.requestCount = 0 ∧
    (dispatchResponse sDispatchEnv {} {} sResp).2.yielded = [.resp sResp] ∧
    (dispatchResponse tupDenv {} {} sResp).1 = {} := by
  have h1 := parse_result_dispatch_semantics.1 sDispatchEnv {} {} sResp
    [.resp sResp] (Or.inr rfl)
  have h2 := parse_result_dispatch_semantics.2.1 tupDenv {} {} sResp
    [.req sReq2] rfl
  exact ⟨h1.1, h1.2.1, h2.1⟩

/-- C9 counterexample: the claim as stated says any materialised sequence of
items/requests has each element processed; a parser returning the tuple
(Request,) — a materialised sequence holding one request — has that request
NOT enqueued: the issued counter stays 0 and the queue stays empty, with no
error raised. -/
theorem tuple_parse_result_not_processed :
    (dispatchResponse tupDenv {} {} sResp).1.requestCount = 0 ∧
    (dispatchResponse tupDenv {} {} sResp).1.queue = [] ∧
    (dispatchResponse tupDenv {} {} sResp).2.yielded = [] ∧
    (dispatchResponse tupDenv {} {} sResp).2.errors = [] := by
  exact ⟨rfl, rfl, rfl, rfl⟩

/-- C10: when one parse invocation yields several Requests, each with its
session field False or None, while the current response holds a live
session, every one of them — not only the first — is assigned that same
session handle (so one handle is owned by several pending requests at
once), and the dispatcher does not close the session. -/
theorem yielded_requests_share_session_handle :
    ∀ (denv : DispatchEnv) (cfg : Cfg) (s : SpState) (res : Resp) (h0 : Nat)
      (items : List PyVal),
      (denv.parse res = .mutSeq items ∨ denv.parse res = .gen items) →
      res.session = some h0 →
      items ≠ [] →
      (∀ v ∈ items, ∃ r, v = PyVal.req r ∧
        (r.session = .pyFalse ∨ r.session = .pyNone)) →
      (∀ x, x ∈ (dispatchResponse denv cfg s res).1.queue
            ++ (dispatchResponse denv cfg s res).1.delayed →
        x ∈ s.queue ++ s.delayed ∨ x.session = .handle h0) ∧
      (dispatchResponse denv cfg s res).2.sessionCloses = 0 := by
  intro denv cfg s res h0 items hpr hres hne hall
  have hcs : (items.foldl (yieldStep denv cfg res)
      { st := s, closeSession := true, yielded := [] }).closeSession = false := by
    apply foldl_closeSession_of_take denv cfg res h0 hres
    cases items with
    | nil => exact absurd rfl hne
    | cons v vs =>
      obtain ⟨r, hv, hsess⟩ := hall v (List.mem_cons_self v vs)
      exact ⟨v, List.mem_cons_self v vs, r, hv, hsess⟩
  have hmem := foldl_yieldStep_session_mem denv cfg res h0 hres items
    { st := s, closeSession := true, yielded := [] } hall
  rcases hpr with hpr | hpr <;>
  · unfold dispatchResponse
    rw [hpr]
    dsimp only
    rw [hcs, closeStage_skip]
    exact ⟨hmem, rfl⟩

/-- Witness for C10: a parse invocation yielding two requests over a response
with live session 7 hands the handle to both; the first queued request
carries handle 7 and the session is not closed. -/
theorem yielded_requests_share_session_handle_witness :
    (dispatchResponse twoReqDenv {} {} sessResp).2.sessionCloses = 0 ∧
    ((dispatchResponse twoReqDenv {} {} sessResp).1.queue.map Req.session)
      = [.handle 7, .handle 7] := by
  have h := yielded_requests_share_session_handle twoReqDenv {} {} sessResp 7
    [.req { url := "/one" }, .req { url := "/two" }] (Or.inr rfl) rfl (by simp)
    (by
      intro v hv
      simp only [List.mem_cons, List.not_mem_nil, or_false] at hv
      rcases hv with rfl | rfl
      · exact ⟨_, rfl, Or.inl rfl⟩
      · exact ⟨_, rfl, Or.inl rfl⟩)
  exact ⟨h.2, by rfl⟩

/-- C7 (amended): for every dispatched response carrying an active session,
the session is closed exactly once by the dispatcher when no request yielded
by the parse callback took ownership of it, and it is not closed when some
yielded request did take ownership; however, an exception raised while
closing it propagates out of the dispatcher loop — it is NOT converted into
a Generic SpiderError reported via on_error (the close call is not wrapped
in a try block in this source).  Conjuncts: (1) no transfer and a normally
closing session: exactly one close, nothing escapes; (2) some yielded
request takes ownership: no close, nothing escapes; (3) no transfer and a
close that raises e: no close completes, e escapes, and no error is
yielded towards on_error. -/
theorem session_close_discipline :
    (∀ (denv : DispatchEnv) (cfg : Cfg) (s : SpState) (res : Resp) (h0 : Nat)
        (items : List PyVal),
        res.session = some h0 →
        (denv.parse res = .mutSeq items ∨ denv.parse res = .gen items) →
        (∀ r : Req, PyVal.req r ∈ items →
          r.session ≠ .pyFalse ∧ r.session ≠ .pyNone) →
        denv.closeFail h0 = none →
        (dispatchResponse denv cfg s res).2.sessionCloses = 1 ∧
        (dispatchResponse denv cfg s res).2.propagated = none) ∧
    (∀ (denv : DispatchEnv) (cfg : Cfg) (s : SpState) (res : Resp) (h0 : Nat)
        (items : List PyVal),
        res.session = some h0 →
        (denv.parse res = .mutSeq items ∨ denv.parse res = .gen items) →
        (∃ v ∈ items, ∃ r, v = PyVal.req r ∧
          (r.session = .pyFalse ∨ r.session = .pyNone)) →
        (dispatchResponse denv cfg s res).2.sessionCloses = 0 ∧
        (dispatchResponse denv cfg s res).2.propagated = none) ∧
    (∀ (denv : DispatchEnv) (cfg : Cfg) (s : SpState) (res : Resp) (h0 : Nat)
        (items : List PyVal) (e : PyExn),
        res.session = some h0 →
        (denv.parse res = .mutSeq items ∨ denv.parse res = .gen items) →
        (∀ r : Req, PyVal.req r ∈ items →
          r.session ≠ .pyFalse ∧ r.session ≠ .pyNone) →
        denv.closeFail h0 = some e →
        (dispatchResponse denv cfg s res).2.sessionCloses = 0 ∧
        (dispatchResponse denv cfg s res).2.propagated = some e ∧
        (dispatchResponse denv cfg s res).2.errors = []) := by
  refine ⟨?_, ?_, ?_⟩
  · intro denv cfg s res h0 items hres hpr hno hc
    have hcs : (items.foldl (yieldStep denv cfg res)
        { st := s, closeSession := true, yielded := [] }).closeSession = true :=
      foldl_closeSession_of_no_take denv cfg res items _ hno
    rcases hpr with hpr | hpr <;>
    · unfold dispatchResponse
      rw [hpr]
      dsimp only
      rw [hcs, closeStage_closes denv res h0 _ hres hc]
      exact ⟨rfl, rfl⟩
  · intro denv cfg s res h0 items hres hpr htake
    have hcs : (items.foldl (yieldStep denv cfg res)
        { st := s, closeSession := true, yielded := [] }).closeSession = false :=
      foldl_closeSession_of_take denv cfg res h0 hres items _ htake
    rcases hpr with hpr | hpr <;>
    · unfold dispatchResponse
      rw [hpr]
      dsimp only
      rw [hcs, closeStage_skip]
      exact ⟨rfl, rfl⟩
  · intro denv cfg s res h0 items e hres hpr hno hc
    have hcs : (items.foldl (yieldStep denv cfg res)
        { st := s, closeSession := true, yielded := [] }).closeSession = true :=
      foldl_closeSession_of_no_take denv cfg res items _ hno
    rcases hpr with hpr | hpr <;>
    · unfold dispatchResponse
      rw [hpr]
      dsimp only
      rw [hcs, closeStage_raises denv res h0 _ e hres hc]
      exact ⟨rfl, rfl, rfl⟩

/-- Witness for C7: over the response with live session 7, a parse yielding
only the response itself leads to exactly one close, and a raising close
escapes the loop. -/
theorem session_close_discipline_witness :
    (dispatchResponse sDispatchEnv {} {} sessResp).2.sessionCloses = 1 ∧
    (dispatchResponse closeFailDenv {} {} sessResp).2.propagated
      = some (.plain "OSError") := by
  refine ⟨(session_close_discipline.1 sDispatchEnv {} {} sessResp 7
      [.resp sessResp] rfl (Or.inr rfl) ?_ rfl).1,
    (session_close_discipline.2.2 closeFailDenv {} {} sessResp 7 []
      (.plain "OSError") rfl (Or.inr rfl) ?_ rfl).2.1⟩
  · intro r hr
    simp at hr
  · intro r hr
    simp at hr

/-- C7 counterexample: the claim as stated says an exception raised while
closing the session becomes a Generic SpiderError reported via on_error
rather than propagating; at a concrete response carrying session 7 whose
close raises OSError, the exception escapes the dispatcher loop, no close
completes, and no error at all is yielded towards on_error. -/
theorem session_close_failure_propagates :
    (dispatchResponse closeFailDenv {} {} sessResp).2.propagated
      = some (.plain "OSError") ∧
    (dispatchResponse closeFailDenv {} {} sessResp).2.errors = [] ∧
    (dispatchResponse closeFailDenv {} {} sessResp).2.sessionCloses = 0 :=
  ⟨rfl, rfl, rfl⟩

/-- Witness for C6 at a concrete chain: the prefix [pTag] threads
"a" to "a!", the handler pDrop drops it whatever the suffix, and the
empty chain hands "a" to collect. -/
theorem pipe_chain_semantics_witness :
    startPipes [pTag, pTag] pCollect (.str "a") sResp = some (.str "a!!") ∧
    startPipes [pTag, pDrop, pTag] pCollect (.str "a") sResp = none ∧
    startPipes [] pCollect (.str "a") sResp = some (.str "a") := by
  refine ⟨?_, ?_, ?_⟩
  · exact pipe_chain_semantics.1 [pTag] pTag pCollect (.str "a") (.str "a!")
      (.str "a!!") sResp rfl rfl (by simp)
  · exact (pipe_chain_semantics.2.1 [pTag] [pTag] [] pDrop pCollect (.str "a")
      (.str "a!") sResp rfl rfl).1
  · exact (pipe_chain_semantics.2.2 pCollect (.str "a") sResp).2 (.str "a") rfl (by simp)

end Mocy
